import Mathlib

/-!
Shallow embedding of libpod's podman command layer:
`cmd/podman/containers_prune.go` (pruneContainers, startCmd) and
`cmd/podman/common.go` (checkAllAndLatest, getAllOrLatestContainers,
validateFlags), with theorems settling the specification claims.

Go error values are modelled by the `GoErr` inductive; `errors.Wrapf`
becomes `GoErr.wrapf`, `errors.Errorf` becomes `GoErr.errorf`, and the
`libpod.ErrInvalidArg` sentinel becomes `GoErr.errInvalidArg`.  Runtime
collaborators (lookup, start, remove, attach, wait, artifact load) are
external at the interface and are modelled as explicit function-valued
fields of runtime records; the command functions record every runtime
call they issue in an event trace so that claims about which calls are
(not) made can be stated.
-/

/-- `libpod.ContainerStatus`: the lifecycle states used by the command layer. -/
inductive ContainerStatus where
  | created
  | running
  | stopped
  | paused
  | exited
  | removing
  | unknown
  deriving DecidableEq, Repr

/-- Go error values as the command layer builds them:
`errors.Errorf` messages, `errors.Wrapf` wrapping, and the
`libpod.ErrInvalidArg` sentinel. -/
inductive GoErr where
  | errInvalidArg : GoErr
  | errorf (msg : String) : GoErr
  | wrapf (cause : GoErr) (msg : String) : GoErr
  deriving DecidableEq, Repr

/-- All message strings appearing in an error value, outermost first. -/
def GoErr.msgs : GoErr → List String
  | .errInvalidArg => ["invalid argument"]
  | .errorf m => [m]
  | .wrapf cause m => m :: cause.msgs

/-- The error mentions the string `s`: some message contains `s` as a substring. -/
def GoErr.mentions (e : GoErr) (s : String) : Prop :=
  ∃ m ∈ e.msgs, ∃ pre post, m = pre ++ s ++ post

/-- A container as seen through the runtime handle interface used by these
commands: its ID, the result of `c.State()` (a status plus a possible error:
the Go call returns both channels), and `c.PodID()`. -/
structure Container where
  id : String
  state : ContainerStatus
  stateErr : Option GoErr
  podID : String
  deriving DecidableEq, Repr

/-! ## Prune workflow (`pruneContainers` in containers_prune.go) -/

/-- The filter closure inside `pruneContainers`:
`state, err := c.State(); state == Stopped || (state == Exited && err == nil && c.PodID() == "")`. -/
def pruneFilter (c : Container) : Bool :=
  c.state == ContainerStatus.stopped ||
    (c.state == ContainerStatus.exited && c.stateErr == none && c.podID == "")

/-- The spec's §4.4 filter predicate, stated in the spec's own words
("state is Stopped, or state is Exited with no associated pod"), for
comparison with the source's `pruneFilter`. -/
def specPrunePredicate (c : Container) : Prop :=
  c.state = ContainerStatus.stopped ∨
    (c.state = ContainerStatus.exited ∧ c.podID = "")

/-- The per-container closure submitted for a qualifying container:
`runtime.RemoveContainer(ctx, con, force)`. -/
inductive PruneAction where
  | removeContainer (c : Container) (force : Bool)
  deriving DecidableEq, Repr

/-- `shared.ParallelWorkerInput`: a container ID tag plus the fallible action. -/
structure ParallelWorkerInput where
  containerID : String
  parallelFunc : PruneAction
  deriving DecidableEq, Repr

/-- The `adapter.LocalRuntime` as `pruneContainers` uses it:
`runtime.GetContainers(filter)` either fails as a whole or yields the
containers it knows (the filter is applied to them). -/
structure PruneRuntime where
  containers : List Container
  getContainersErr : Option GoErr

/-- Modelled from the spec: `printParallelOutput` (in the repository's
`cmd/podman/shared` glue, not under src/) aggregates the batch outcome —
"if any unit failed, the command fails and prints every captured failure". -/
def printParallelOutput (deleteErrors : List (String × GoErr)) (errCount : Nat) :
    Option GoErr :=
  if errCount > 0 then
    some (.errorf (String.intercalate "; " (deleteErrors.map Prod.fst)))
  else none

/-- Observable outcome of `pruneContainers`: the batch units built, whether
the worker pool was invoked, and the returned error. -/
structure PruneResult where
  deleteFuncs : List ParallelWorkerInput
  executorInvoked : Bool
  ret : Option GoErr
  deriving DecidableEq, Repr

/-- `pruneContainers(runtime, ctx, maxWorkers, force)`.  The external
`shared.ParallelExecuteWorkerPool` collaborator is passed in as `exec`
(spec §4.2 contract: one tagged error per failed unit plus the count). -/
def pruneContainers
    (exec : Nat → List ParallelWorkerInput → List (String × GoErr) × Nat)
    (rt : PruneRuntime) (maxWorkers : Nat) (force : Bool) : PruneResult :=
  match rt.getContainersErr with
  | some e => ⟨[], false, some e⟩
  | none =>
    let delContainers := rt.containers.filter pruneFilter
    if delContainers.length < 1 then ⟨[], false, none⟩
    else
      let deleteFuncs := delContainers.map
        (fun con => ⟨con.id, PruneAction.removeContainer con force⟩)
      let res := exec maxWorkers deleteFuncs
      ⟨deleteFuncs, true, printParallelOutput res.1 res.2⟩

/-! ## Selector (`checkAllAndLatest`, `getAllOrLatestContainers` in common.go) -/

/-- `checkAllAndLatest(c)`: the static mutual-exclusion checks over the
argument list and the `--all` / `--latest` flags; it touches no runtime. -/
def checkAllAndLatest (args : List String) (all latest : Bool) : Option GoErr :=
  if (all || latest) && args.length > 0 then
    some (.errorf "no arguments are needed with --all or --latest")
  else if all && latest then
    some (.errorf "--all and --latest cannot be used together")
  else if args.length < 1 && !all && !latest then
    some (.errorf "you must provide at least one pod name or id")
  else none

/-- The `libpod.Runtime` surface used by `getAllOrLatestContainers`.
`runtime.LookupContainer` returns both a container pointer and an error
(the code inspects the two channels independently: it records the error
when non-nil and appends the container when non-nil). -/
structure SelRuntime where
  lookupCtr : String → Option Container × Option GoErr
  latestCtr : Except GoErr Container
  allCtrs : Except GoErr (List Container)

/-- The explicit-identifier loop of `getAllOrLatestContainers`: for each
identifier, look it up; on a lookup error, print the previously pending
error to stderr (tracked in `prints`) and record the new wrapped error as
`lastError`; append the container to the result only when it is non-nil.
Returns (containers, lastError, stderr prints). -/
def explicitLoop (rt : SelRuntime) :
    List String → List Container → Option GoErr → List GoErr →
    List Container × Option GoErr × List GoErr
  | [], acc, lastError, prints => (acc, lastError, prints)
  | i :: rest, acc, lastError, prints =>
    let looked := rt.lookupCtr i
    let next :=
      match looked.2 with
      | some e =>
          (some (GoErr.wrapf e ("unable to find container " ++ i)),
           prints ++ (match lastError with | some le => [le] | none => []))
      | none => (lastError, prints)
    let acc' :=
      match looked.1 with
      | some ctr => acc ++ [ctr]
      | none => acc
    explicitLoop rt rest acc' next.1 next.2

/-- `getAllOrLatestContainers(c, runtime, filterState, verb)`:
`--all` lists all containers (optionally filtered by a state, ignoring each
container's state-query error, as the Go filter does with `state, _ :=
c.State()`); `--latest` asks for the most recent container; otherwise the
explicit-identifier loop runs.  `filterState = none` models the Go `-1`
sentinel ("no filter").  Returns (containers, error, stderr prints). -/
def getAllOrLatestContainers (args : List String) (all latest : Bool)
    (rt : SelRuntime) (filterState : Option ContainerStatus) (verb : String) :
    List Container × Option GoErr × List GoErr :=
  if all then
    match rt.allCtrs with
    | .error e => ([], some (.wrapf e ("unable to get " ++ verb ++ " containers")), [])
    | .ok ctrs =>
      match filterState with
      | some fs => (ctrs.filter (fun c => c.state == fs), none, [])
      | none => (ctrs, none, [])
  else if latest then
    match rt.latestCtr with
    | .error e => ([], some (.wrapf e "unable to get latest container"), [])
    | .ok ctr => ([ctr], none, [])
  else explicitLoop rt args [] none []

/-! ## Start command (`startCmd` in containers_prune.go snippet) -/

/-- The flags of `startCmd` that matter to its control flow.
`sigProxyExplicit` models the urfave/cli `BoolTFlag`: `c.BoolT("sig-proxy")`
is the explicit value when set and `true` when unset, and
`c.IsSet("sig-proxy")` is whether it was set. -/
structure StartCtx where
  args : List String
  latest : Bool
  attach : Bool
  interactive : Bool
  sigProxyExplicit : Option Bool
  detachKeys : String

/-- `cc.CreateConfig`, reduced to the only field `startCmd` reads. -/
structure CreateConfig where
  rm : Bool
  deriving DecidableEq, Repr

/-- Outcome of `ctr.GetArtifact("create-config")` followed by
`json.Unmarshal`: the load can fail, the unmarshal can fail (leaving the
zero-value config, whose `Rm` is false), or a config is decoded. -/
inductive ArtifactResult where
  | loadErr (e : GoErr)
  | parseErr
  | decoded (cfg : CreateConfig)
  deriving DecidableEq, Repr

/-- The `libpod.Runtime` and container-handle operations `startCmd` issues,
indexed by container ID where the Go code calls a method on a handle. -/
structure StartRuntime where
  getRuntimeErr : Option GoErr
  lookupCtr : String → Except GoErr Container
  latestCtr : Except GoErr Container
  startErr : String → Option GoErr
  artifact : String → ArtifactResult
  removeErr : String → Option GoErr
  attachErr : String → Option GoErr
  waitRes : String → Except GoErr Int
  cleanupErr : String → Option GoErr

/-- One entry of the observable trace of `startCmd`: a runtime call it
issued or a line it printed. -/
inductive StartEvent where
  | latestCall
  | lookupCall (ident : String)
  | stateCall (id : String)
  | attachCall (id : String) (startIfNotRunning sigProxy hasStdin : Bool)
  | waitCall (id : String)
  | cleanupCall (id : String)
  | startCall (id : String)
  | artifactCall (id : String)
  | removeCall (id : String) (force : Bool)
  | stdoutLine (s : String)
  | stderrLine (e : GoErr)
  deriving DecidableEq, Repr

/-- The regexp `^-.+` of `validateFlags`: a leading dash followed by at
least one character. -/
def looksLikeOption (v : String) : Bool :=
  match v.data with
  | '-' :: _ :: _ => true
  | _ => false

/-- `validateFlags(c, startFlags)` from common.go, specialised to
`startFlags`: the only `StringFlag` there is `detach-keys`, whose value
must not look like another option (regexp `^-.+`). -/
def validateStartFlags (c : StartCtx) : Option GoErr :=
  if looksLikeOption c.detachKeys then
    some (.errorf "option --detach-keys requires a value")
  else none

/-- The sig-proxy precondition block of `startCmd`: with `sig-proxy`
effectively true but `attach` false, an explicitly-set flag is an
invalid-argument error and an unset one is coerced to false. -/
def sigProxyCheck (c : StartCtx) : Except GoErr Bool :=
  let sigProxy := c.sigProxyExplicit.getD true
  if sigProxy && !c.attach then
    if c.sigProxyExplicit.isSome then
      .error (.wrapf .errInvalidArg "you cannot use sig-proxy without --attach")
    else .ok false
  else .ok sigProxy

/-- Result of processing one target in `startCmd`'s loop: either fall
through to the next target (`continue`, carrying the updated `lastError`)
or return from the whole command (`halt`, with the returned error and the
exit code captured from `ctr.Wait()` when any). -/
inductive StepResult where
  | cont (tr : List StartEvent) (lastError : Option GoErr)
  | halt (tr : List StartEvent) (ret : Option GoErr) (exit : Option Int)

/-- The `if lastError != nil { fmt.Fprintln(os.Stderr, lastError) }` flush. -/
def flushPrev : Option GoErr → List StartEvent
  | some e => [.stderrLine e]
  | none => []

/-- The body of `startCmd`'s per-target loop, for one identifier. -/
def startStep (c : StartCtx) (rt : StartRuntime) (sigProxy : Bool)
    (lastError : Option GoErr) (ident : String) : StepResult :=
  match rt.lookupCtr ident with
  | .error e =>
      .cont ([.lookupCall ident] ++ flushPrev lastError)
        (some (.wrapf e ("unable to find container " ++ ident)))
  | .ok ctr =>
    match ctr.stateErr with
    | some e =>
        .halt [.lookupCall ident, .stateCall ctr.id]
          (some (.wrapf e "unable to get container state")) none
    | none =>
      let ctrRunning := ctr.state == ContainerStatus.running
      if c.attach then
        let tr := [.lookupCall ident, .stateCall ctr.id,
          .attachCall ctr.id (!ctrRunning) sigProxy c.interactive]
        match rt.attachErr ctr.id with
        | some e =>
          if ctrRunning then .halt tr (some e) none
          else .halt tr (some (.wrapf e ("unable to start container " ++ ctr.id))) none
        | none =>
          if ctrRunning then .halt tr none none
          else
            match rt.waitRes ctr.id with
            | .error _ =>
                .halt (tr ++ [.waitCall ctr.id, .cleanupCall ctr.id])
                  (rt.cleanupErr ctr.id) none
            | .ok ecode =>
                .halt (tr ++ [.waitCall ctr.id, .cleanupCall ctr.id])
                  (rt.cleanupErr ctr.id) (some ecode)
      else if ctrRunning then
        .cont [.lookupCall ident, .stateCall ctr.id, .stdoutLine ctr.id] lastError
      else
        match rt.startErr ctr.id with
        | some e =>
            let rmTrace :=
              match rt.artifact ctr.id with
              | .loadErr _ => []
              | .parseErr => []
              | .decoded cfg => if cfg.rm then [StartEvent.removeCall ctr.id true] else []
            .cont ([.lookupCall ident, .stateCall ctr.id, .startCall ctr.id,
                .artifactCall ctr.id] ++ rmTrace ++ flushPrev lastError)
              (some (.wrapf e ("unable to start container \"" ++ ident ++ "\"")))
        | none =>
            .cont [.lookupCall ident, .stateCall ctr.id, .startCall ctr.id,
              .stdoutLine ident] lastError

/-- Observable outcome of `startCmd`: event trace, returned error, and the
exit code captured from the attached process (when any). -/
structure StartOutcome where
  trace : List StartEvent
  ret : Option GoErr
  exit : Option Int
  deriving DecidableEq, Repr

/-- `startCmd`'s loop over the target identifiers, threading `lastError`. -/
def startLoop (c : StartCtx) (rt : StartRuntime) (sigProxy : Bool) :
    List String → Option GoErr → StartOutcome
  | [], lastError => ⟨[], lastError, none⟩
  | i :: rest, lastError =>
    match startStep c rt sigProxy lastError i with
    | .halt tr ret ex => ⟨tr, ret, ex⟩
    | .cont tr lastError' =>
      let out := startLoop c rt sigProxy rest lastError'
      ⟨tr ++ out.trace, out.ret, out.exit⟩

/-- `startCmd(c)`: static validations in source order (argument count,
multi-target attach, `validateFlags`, sig-proxy), then runtime creation,
`--latest` resolution, and the per-target loop. -/
def startCmd (c : StartCtx) (rt : StartRuntime) : StartOutcome :=
  if c.args.length < 1 && !c.latest then
    ⟨[], some (.errorf "you must provide at least one container name or id"), none⟩
  else if c.args.length > 1 && c.attach then
    ⟨[], some (.errorf "you cannot start and attach multiple containers at once"), none⟩
  else
    match validateStartFlags c with
    | some e => ⟨[], some e, none⟩
    | none =>
      match sigProxyCheck c with
      | .error e => ⟨[], some e, none⟩
      | .ok sigProxy =>
        match rt.getRuntimeErr with
        | some e => ⟨[], some (.wrapf e "error creating libpod runtime"), none⟩
        | none =>
          if c.latest then
            match rt.latestCtr with
            | .error e => ⟨[.latestCall], some (.wrapf e "unable to get latest container"), none⟩
            | .ok lastCtr =>
              let out := startLoop c rt sigProxy (c.args ++ [lastCtr.id]) none
              ⟨.latestCall :: out.trace, out.ret, out.exit⟩
          else startLoop c rt sigProxy c.args none

/-! ## Helper accessors for `StepResult` -/

/-- The events recorded while processing one target. -/
def StepResult.events : StepResult → List StartEvent
  | .cont tr _ => tr
  | .halt tr _ _ => tr

/-- Whether the step falls through to the next target. -/
def StepResult.isCont : StepResult → Bool
  | .cont _ _ => true
  | .halt _ _ _ => false

/-- The error the step leaves behind: the updated `lastError` on a
fall-through, or the returned error on a halt. -/
def StepResult.nextErr : StepResult → Option GoErr
  | .cont _ le => le
  | .halt _ r _ => r

/-! ## Concrete instances used by witnesses and counterexamples -/

/-- A lookup table for the C1 witness: `a` and `c` resolve, `b` does not. -/
def c1Rt : SelRuntime where
  lookupCtr := fun i =>
    if i = "a" then (some ⟨"idA", ContainerStatus.stopped, none, ""⟩, none)
    else if i = "c" then (some ⟨"idC", ContainerStatus.stopped, none, ""⟩, none)
    else (none, some (.errorf "no container with name or ID b found"))
  latestCtr := .error (.errorf "no containers present")
  allCtrs := .ok []

/-- C6 counterexample inputs: `start` with one explicit identifier and
`--latest` together — a combination the mutual-exclusion rules forbid. -/
def c6Ctx : StartCtx where
  args := ["a"]
  latest := true
  attach := false
  interactive := false
  sigProxyExplicit := none
  detachKeys := ""

/-- C6 counterexample runtime: every lookup succeeds with a running
container; the latest container is `L`. -/
def c6Rt : StartRuntime where
  getRuntimeErr := none
  lookupCtr := fun i => .ok ⟨i, ContainerStatus.running, none, ""⟩
  latestCtr := .ok ⟨"L", ContainerStatus.running, none, ""⟩
  startErr := fun _ => none
  artifact := fun _ => .parseErr
  removeErr := fun _ => none
  attachErr := fun _ => none
  waitRes := fun _ => .ok 0
  cleanupErr := fun _ => none

/-- Inputs for the C4 witness: one running container, non-attach start. -/
def cC4 : StartCtx where
  args := ["r"]
  latest := false
  attach := false
  interactive := false
  sigProxyExplicit := none
  detachKeys := ""

/-- Runtime for the C4 witness. -/
def rtC4 : StartRuntime where
  getRuntimeErr := none
  lookupCtr := fun _ => .ok ⟨"R", ContainerStatus.running, none, ""⟩
  latestCtr := .error (.errorf "no containers present")
  startErr := fun _ => none
  artifact := fun _ => .parseErr
  removeErr := fun _ => none
  attachErr := fun _ => none
  waitRes := fun _ => .ok 0
  cleanupErr := fun _ => none

/-- Inputs for the C2 witness: a container whose start fails, whose
creation artifact decodes with `Rm` set, and whose removal also fails. -/
def cC2 : StartCtx where
  args := ["f"]
  latest := false
  attach := false
  interactive := false
  sigProxyExplicit := none
  detachKeys := ""

/-- Runtime for the C2 witness. -/
def rtC2 : StartRuntime where
  getRuntimeErr := none
  lookupCtr := fun _ => .ok ⟨"F", ContainerStatus.created, none, ""⟩
  latestCtr := .error (.errorf "no containers present")
  startErr := fun _ => some (.errorf "oci runtime failed")
  artifact := fun _ => .decoded ⟨true⟩
  removeErr := fun _ => some (.errorf "remove failed")
  attachErr := fun _ => none
  waitRes := fun _ => .ok 0
  cleanupErr := fun _ => none

/-- C5 counterexample inputs: attach with one explicit identifier plus
`--latest`, which resolves a second target. -/
def c5Ctx : StartCtx where
  args := ["a"]
  latest := true
  attach := true
  interactive := false
  sigProxyExplicit := none
  detachKeys := ""

/-- C5 counterexample runtime: `a` resolves to the non-running `A`, the
latest container is `L`. -/
def c5Rt : StartRuntime where
  getRuntimeErr := none
  lookupCtr := fun _ => .ok ⟨"A", ContainerStatus.created, none, ""⟩
  latestCtr := .ok ⟨"L", ContainerStatus.created, none, ""⟩
  startErr := fun _ => none
  artifact := fun _ => .parseErr
  removeErr := fun _ => none
  attachErr := fun _ => none
  waitRes := fun _ => .ok 0
  cleanupErr := fun _ => none

/-- C8 counterexample inputs: two targets, the first with a failing state
query. -/
def c8Ctx : StartCtx where
  args := ["a", "b"]
  latest := false
  attach := false
  interactive := false
  sigProxyExplicit := none
  detachKeys := ""

/-- C8 counterexample runtime. -/
def c8Rt : StartRuntime where
  getRuntimeErr := none
  lookupCtr := fun i =>
    if i = "a" then .ok ⟨"A", ContainerStatus.created, some (.errorf "db corrupted"), ""⟩
    else .ok ⟨"B", ContainerStatus.created, none, ""⟩
  latestCtr := .error (.errorf "no containers present")
  startErr := fun _ => none
  artifact := fun _ => .parseErr
  removeErr := fun _ => none
  attachErr := fun _ => none
  waitRes := fun _ => .ok 0
  cleanupErr := fun _ => none

/-- Inputs for the C8 witness: a missing identifier, a container whose
start fails, and a container that starts cleanly. -/
def cW8 : StartCtx where
  args := ["s", "t"]
  latest := false
  attach := false
  interactive := false
  sigProxyExplicit := none
  detachKeys := ""

/-- Runtime for the C8 witness. -/
def rtW8 : StartRuntime where
  getRuntimeErr := none
  lookupCtr := fun i =>
    if i = "missing" then .error (.errorf "no such container")
    else if i = "s" then .ok ⟨"S", ContainerStatus.created, none, ""⟩
    else .ok ⟨"T", ContainerStatus.created, none, ""⟩
  latestCtr := .error (.errorf "no containers present")
  startErr := fun i => if i = "S" then some (.errorf "oci runtime failed") else none
  artifact := fun _ => .loadErr (.errorf "no artifact")
  removeErr := fun _ => none
  attachErr := fun _ => none
  waitRes := fun _ => .ok 0
  cleanupErr := fun _ => none

/-! ## Theorems for the claims -/

/-- Every step's trace opens with the lookup of its own identifier. -/
theorem startStep_mem_lookupCall (c : StartCtx) (rt : StartRuntime) (sp : Bool)
    (le : Option GoErr) (ident : String) :
    StartEvent.lookupCall ident ∈ (startStep c rt sp le ident).events := by
  unfold startStep
  cases hl : rt.lookupCtr ident with
  | error e => simp [StepResult.events]
  | ok ctr =>
    cases hs : ctr.stateErr with
    | some e => simp [hs, StepResult.events]
    | none =>
      by_cases ha : c.attach = true <;> simp only [ha, if_true, if_false]
      · cases hat : rt.attachErr ctr.id with
        | some e =>
          by_cases hr : (ctr.state == ContainerStatus.running) = true <;>
            simp [hs, hr, StepResult.events]
        | none =>
          by_cases hr : (ctr.state == ContainerStatus.running) = true
          · simp [hs, hr, StepResult.events]
          · cases hw : rt.waitRes ctr.id <;> simp [hs, hr, StepResult.events]
      · by_cases hr : (ctr.state == ContainerStatus.running) = true
        · simp [hs, ha, hr, StepResult.events]
        · cases hst : rt.startErr ctr.id with
          | some e => simp [hs, ha, hr, StepResult.events]
          | none => simp [hs, ha, hr, StepResult.events]

/-- C10: the prune filter treats the state-query error channel
asymmetrically: a container reported `Stopped` qualifies regardless of
the accompanying error, while a container reported `Exited` qualifies
exactly when the state query returned no error and the pod reference is
empty. -/
theorem pruneFilter_state_error_asymmetry (c : Container) :
    (c.state = ContainerStatus.stopped → pruneFilter c = true) ∧
    (c.state = ContainerStatus.exited →
      (pruneFilter c = true ↔ c.stateErr = none ∧ c.podID = "")) := by
  constructor
  · intro h; simp [pruneFilter, h]
  · intro h; simp [pruneFilter, h]

/-- Witness for C10 at concrete containers: a `Stopped` container with a
failing state query qualifies; an `Exited` container with a clean state
query and no pod qualifies. -/
theorem pruneFilter_state_error_asymmetry_witness :
    pruneFilter ⟨"s", ContainerStatus.stopped, some (.errorf "boom"), "p"⟩ = true ∧
    (pruneFilter ⟨"e", ContainerStatus.exited, none, ""⟩ = true ↔
      (⟨"e", ContainerStatus.exited, none, ""⟩ : Container).stateErr = none ∧
      (⟨"e", ContainerStatus.exited, none, ""⟩ : Container).podID = "") :=
  ⟨(pruneFilter_state_error_asymmetry _).1 rfl,
   (pruneFilter_state_error_asymmetry _).2 rfl⟩

/-- C7 counterexample: an `Exited` container with no pod but whose state
query also returned an error satisfies the spec's prune predicate yet is
not selected by the code's filter — the claim's "iff" fails there. -/
theorem pruneFilter_spec_mismatch :
    specPrunePredicate ⟨"x", ContainerStatus.exited, some (.errorf "boom"), ""⟩ ∧
    pruneFilter ⟨"x", ContainerStatus.exited, some (.errorf "boom"), ""⟩ = false :=
  ⟨Or.inr ⟨rfl, rfl⟩, by decide⟩

/-- C7 amended: a container is selected for pruning iff its state is
`Stopped`, or its state is `Exited` with a clean state query and no
associated pod; each selected container contributes exactly one batch
unit, tagged with its ID, whose action is removal of that container with
the user's force flag. -/
theorem pruneContainers_selection
    (exec : Nat → List ParallelWorkerInput → List (String × GoErr) × Nat)
    (rt : PruneRuntime) (mw : Nat) (force : Bool)
    (h : rt.getContainersErr = none) :
    (∀ c : Container, pruneFilter c = true ↔
      (c.state = ContainerStatus.stopped ∨
        (c.state = ContainerStatus.exited ∧ c.stateErr = none ∧ c.podID = ""))) ∧
    (pruneContainers exec rt mw force).deleteFuncs =
      (rt.containers.filter pruneFilter).map
        (fun con => ⟨con.id, PruneAction.removeContainer con force⟩) := by
  constructor
  · intro c
    simp [pruneFilter, Bool.or_eq_true, Bool.and_eq_true, beq_iff_eq, and_assoc]
  · simp only [pruneContainers, h]
    split
    · rename_i hlen
      have hnil : rt.containers.filter pruneFilter = [] :=
        List.length_eq_zero.mp (Nat.lt_one_iff.mp hlen)
      simp [hnil]
    · rfl

/-- Witness for C7's amended theorem: a two-container runtime in which
only the stopped container qualifies, yielding one forced-removal unit. -/
theorem pruneContainers_selection_witness :
    (∀ c : Container, pruneFilter c = true ↔
      (c.state = ContainerStatus.stopped ∨
        (c.state = ContainerStatus.exited ∧ c.stateErr = none ∧ c.podID = ""))) ∧
    (pruneContainers (fun _ _ => ([], 0))
        ⟨[⟨"s", ContainerStatus.stopped, none, ""⟩,
          ⟨"r", ContainerStatus.running, none, ""⟩], none⟩ 4 true).deleteFuncs =
      (([⟨"s", ContainerStatus.stopped, none, ""⟩,
          ⟨"r", ContainerStatus.running, none, ""⟩] : List Container).filter pruneFilter).map
        (fun con => ⟨con.id, PruneAction.removeContainer con true⟩) :=
  pruneContainers_selection (fun _ _ => ([], 0))
    ⟨[⟨"s", ContainerStatus.stopped, none, ""⟩,
      ⟨"r", ContainerStatus.running, none, ""⟩], none⟩ 4 true rfl

/-- C9: when the filtered container list is empty (and the bulk query
succeeded), `pruneContainers` returns nil without invoking the worker
pool and without building any batch unit, for every executor. -/
theorem pruneContainers_empty_success
    (exec : Nat → List ParallelWorkerInput → List (String × GoErr) × Nat)
    (rt : PruneRuntime) (mw : Nat) (force : Bool)
    (h : rt.getContainersErr = none)
    (hq : rt.containers.filter pruneFilter = []) :
    pruneContainers exec rt mw force = ⟨[], false, none⟩ := by
  unfold pruneContainers
  rw [h]
  simp [hq]

/-- Witness for C9: a runtime holding one running container (which does
not qualify) prunes to a success with no units and no executor call. -/
theorem pruneContainers_empty_success_witness :
    pruneContainers (fun _ _ => ([("x", .errorf "boom")], 1))
      ⟨[⟨"r", ContainerStatus.running, none, ""⟩], none⟩ 3 true = ⟨[], false, none⟩ :=
  pruneContainers_empty_success _ _ 3 true rfl (by decide)

/-- C1: explicit-identifier selection over `[a, b, c]` where `b` does not
resolve: the result sequence holds the handles of `a` and `c` in input
order (no entry is appended for `b`, only resolved handles reach the
sequence), the aggregated error is the wrapped lookup error for `b` and
mentions `b`, and with a single failure nothing is flushed to stderr. -/
theorem explicit_selection_partial_failure (rt : SelRuntime) (a b c : String)
    (ha hc : Container) (e : GoErr)
    (hA : rt.lookupCtr a = (some ha, none))
    (hB : rt.lookupCtr b = (none, some e))
    (hC : rt.lookupCtr c = (some hc, none)) :
    getAllOrLatestContainers [a, b, c] false false rt none "started" =
      ([ha, hc], some (.wrapf e ("unable to find container " ++ b)), []) ∧
    (GoErr.wrapf e ("unable to find container " ++ b)).mentions b := by
  constructor
  · simp [getAllOrLatestContainers, explicitLoop, hA, hB, hC]
  · exact ⟨_, List.mem_cons_self _ _, "unable to find container ", "",
      (String.append_empty _).symm⟩

/-- Witness for C1 at the concrete identifiers `a`, `b`, `c`. -/
theorem explicit_selection_partial_failure_witness :
    getAllOrLatestContainers ["a", "b", "c"] false false c1Rt none "started" =
      ([⟨"idA", ContainerStatus.stopped, none, ""⟩,
        ⟨"idC", ContainerStatus.stopped, none, ""⟩],
       some (.wrapf (.errorf "no container with name or ID b found")
         ("unable to find container " ++ "b")), []) ∧
    (GoErr.wrapf (.errorf "no container with name or ID b found")
      ("unable to find container " ++ "b")).mentions "b" :=
  explicit_selection_partial_failure c1Rt "a" "b" "c" _ _ _
    (by decide) (by decide) (by decide)

/-- C6 counterexample: `startCmd` never performs the shared
mutual-exclusion validation — invoked with an explicit identifier *and*
`--latest` (a violating combination) it succeeds and issues runtime calls
(the latest query and the per-target lookups). -/
theorem start_ids_with_latest_not_rejected :
    c6Ctx.args ≠ [] ∧ c6Ctx.latest = true ∧
    (startCmd c6Ctx c6Rt).ret = none ∧
    StartEvent.latestCall ∈ (startCmd c6Ctx c6Rt).trace ∧
    StartEvent.lookupCall "a" ∈ (startCmd c6Ctx c6Rt).trace := by
  decide

/-- C6 amended: the static mutual-exclusion validation lives in
`checkAllAndLatest`, which rejects exactly the violating combinations
(explicit ids with `--all`/`--latest`, `--all` with `--latest`, and no
criterion with no ids) without touching a runtime; `startCmd` does not
call it and itself rejects statically only the "no identifiers, no
`--latest`" case, before any runtime call. -/
theorem checkAllAndLatest_validation :
    (∀ (args : List String) (all latest : Bool),
      checkAllAndLatest args all latest = none ↔
        ¬((all = true ∨ latest = true) ∧ args ≠ []) ∧
        ¬(all = true ∧ latest = true) ∧
        ¬(args = [] ∧ all = false ∧ latest = false)) ∧
    (∀ (c : StartCtx) (rt : StartRuntime), c.args = [] → c.latest = false →
      startCmd c rt =
        ⟨[], some (.errorf "you must provide at least one container name or id"), none⟩) := by
  constructor
  · intro args all latest
    cases all <;> cases latest <;> cases args <;> simp [checkAllAndLatest]
  · intro c rt h1 h2
    simp [startCmd, h1, h2]

/-- C4: a non-attach start of a container whose state is `Running` is a
success no-op: the container's ID is echoed, no start call is issued (the
trace holds exactly the lookup, the state query and the echoed ID line),
the recorded per-target error is unchanged, and the loop continues with
the next target. -/
theorem start_running_noop (c : StartCtx) (rt : StartRuntime) (sp : Bool)
    (lastError : Option GoErr) (ident : String) (ctr : Container)
    (hatt : c.attach = false)
    (hl : rt.lookupCtr ident = .ok ctr)
    (hs : ctr.stateErr = none)
    (hr : ctr.state = ContainerStatus.running) :
    startStep c rt sp lastError ident =
      .cont [.lookupCall ident, .stateCall ctr.id, .stdoutLine ctr.id] lastError := by
  unfold startStep
  simp [hl, hs, hatt, hr]

/-- Witness for C4: the running container's step echoes its ID, issues no
start call, and leaves the pending error untouched. -/
theorem start_running_noop_witness :
    startStep cC4 rtC4 false (some (.errorf "previous")) "r" =
      .cont [.lookupCall "r", .stateCall "R", .stdoutLine "R"]
        (some (.errorf "previous")) :=
  start_running_noop cC4 rtC4 false _ "r" _ rfl rfl rfl rfl

/-- C2: when a non-attach start fails, the step still continues; the
rollback removal fires exactly once iff the creation artifact decodes
with the `Rm` policy set (zero times when the artifact cannot be loaded,
fails to decode, or has `Rm` unset); every removal issued is forced and
targets this container; and the recorded per-target error is the wrapped
original start error, whatever the artifact-load or removal outcome
(both are arbitrary here). -/
theorem start_failure_rm_rollback (c : StartCtx) (rt : StartRuntime) (sp : Bool)
    (lastError : Option GoErr) (ident : String) (ctr : Container) (e : GoErr)
    (hatt : c.attach = false)
    (hl : rt.lookupCtr ident = .ok ctr)
    (hs : ctr.stateErr = none)
    (hr : ctr.state ≠ ContainerStatus.running)
    (hst : rt.startErr ctr.id = some e) :
    (startStep c rt sp lastError ident).isCont = true ∧
    (startStep c rt sp lastError ident).nextErr =
      some (.wrapf e ("unable to start container \"" ++ ident ++ "\"")) ∧
    (startStep c rt sp lastError ident).events.count
        (StartEvent.removeCall ctr.id true) =
      (match rt.artifact ctr.id with
       | .decoded cfg => if cfg.rm then 1 else 0
       | _ => 0) ∧
    (∀ i f, StartEvent.removeCall i f ∈ (startStep c rt sp lastError ident).events →
      i = ctr.id ∧ f = true) := by
  have hrb : (ctr.state == ContainerStatus.running) = false := by simp [hr]
  unfold startStep
  cases hart : rt.artifact ctr.id with
  | loadErr e2 =>
    cases lastError <;>
      simp [hl, hs, hatt, hrb, hst, hart, flushPrev,
        StepResult.isCont, StepResult.nextErr, StepResult.events]
  | parseErr =>
    cases lastError <;>
      simp [hl, hs, hatt, hrb, hst, hart, flushPrev,
        StepResult.isCont, StepResult.nextErr, StepResult.events]
  | decoded cfg =>
    cases hrm : cfg.rm <;> cases lastError <;>
      simp [hl, hs, hatt, hrb, hst, hart, hrm, flushPrev,
        StepResult.isCont, StepResult.nextErr, StepResult.events]

/-- Witness for C2: with the `Rm` policy decoded, exactly one forced
removal of the failed container, and the recorded error is the wrapped
start error even though the removal itself failed. -/
theorem start_failure_rm_rollback_witness :
    (startStep cC2 rtC2 false none "f").isCont = true ∧
    (startStep cC2 rtC2 false none "f").nextErr =
      some (.wrapf (.errorf "oci runtime failed")
        ("unable to start container \"" ++ "f" ++ "\"")) ∧
    (startStep cC2 rtC2 false none "f").events.count
        (StartEvent.removeCall "F" true) = 1 ∧
    (∀ i f, StartEvent.removeCall i f ∈ (startStep cC2 rtC2 false none "f").events →
      i = "F" ∧ f = true) :=
  start_failure_rm_rollback cC2 rtC2 false none "f" ⟨"F", ContainerStatus.created, none, ""⟩
    (.errorf "oci runtime failed") rfl rfl rfl (by decide) rfl

/-- C3: with `attach` false, an explicitly-set `sig-proxy=true` makes the
command fail with the wrapped `ErrInvalidArg` before any runtime call
(empty trace), while an unset `sig-proxy` (whose `BoolT` default is true)
is silently coerced to false by the same check. The hypotheses state that
the validations preceding the sig-proxy block pass. -/
theorem sigproxy_precondition (c : StartCtx) (rt : StartRuntime)
    (hargs : c.args = [] → c.latest = true)
    (hflags : validateStartFlags c = none)
    (hatt : c.attach = false) :
    (c.sigProxyExplicit = some true →
      startCmd c rt =
        ⟨[], some (.wrapf .errInvalidArg "you cannot use sig-proxy without --attach"),
          none⟩) ∧
    (c.sigProxyExplicit = none → sigProxyCheck c = .ok false) := by
  constructor
  · intro hsp
    simp [startCmd, hatt, hflags, sigProxyCheck, hsp]
    exact hargs
  · intro hsp
    simp [sigProxyCheck, hsp, hatt]

/-- Witness for C3, both branches: an explicit `sig-proxy=true` without
attach is rejected with the invalid-argument error and an empty trace; an
unset `sig-proxy` without attach resolves to false. -/
theorem sigproxy_precondition_witness :
    startCmd ⟨["x"], false, false, false, some true, ""⟩ c6Rt =
      ⟨[], some (.wrapf .errInvalidArg "you cannot use sig-proxy without --attach"),
        none⟩ ∧
    sigProxyCheck ⟨["x"], false, false, false, none, ""⟩ = .ok false :=
  ⟨(sigproxy_precondition ⟨["x"], false, false, false, some true, ""⟩ c6Rt
      (by intro h; exact absurd h (by decide)) (by decide) rfl).1 rfl,
   (sigproxy_precondition ⟨["x"], false, false, false, none, ""⟩ c6Rt
      (by intro h; exact absurd h (by decide)) (by decide) rfl).2 rfl⟩

/-- C5 amended: only more than one *explicit* identifier with `attach`
is rejected — the check precedes `--latest` resolution.  In that case the
command fails before any runtime call (empty trace, so zero attach and
zero start calls). -/
theorem start_multi_attach_rejected (c : StartCtx) (rt : StartRuntime)
    (hlen : 1 < c.args.length) (hatt : c.attach = true) :
    startCmd c rt =
      ⟨[], some (.errorf "you cannot start and attach multiple containers at once"),
        none⟩ := by
  have hne : c.args ≠ [] := by
    intro hnil
    rw [hnil] at hlen
    exact absurd hlen (by decide)
  simp [startCmd, hne, hlen, hatt]

/-- Witness for C5's amended theorem: two explicit identifiers with
attach requested. -/
theorem start_multi_attach_rejected_witness :
    startCmd ⟨["a", "b"], false, true, false, none, ""⟩ c6Rt =
      ⟨[], some (.errorf "you cannot start and attach multiple containers at once"),
        none⟩ :=
  start_multi_attach_rejected ⟨["a", "b"], false, true, false, none, ""⟩ c6Rt
    (by decide) rfl

/-- C5 counterexample: attach requested while two targets are resolved
(one explicit plus `--latest`), yet the command does not fail with the
multiple-containers error — it attaches to the first target and succeeds. -/
theorem start_attach_two_resolved_targets_not_rejected :
    c5Ctx.attach = true ∧
    c5Rt.latestCtr = .ok ⟨"L", ContainerStatus.created, none, ""⟩ ∧
    1 < (c5Ctx.args ++ ["L"]).length ∧
    (startCmd c5Ctx c5Rt).ret = none ∧
    StartEvent.attachCall "A" true true false ∈ (startCmd c5Ctx c5Rt).trace :=
  ⟨rfl, rfl, by decide, by decide, by decide⟩

/-- C8 counterexample: a state-query failure on the first target returns
immediately — the second target is never even looked up, so a per-target
error can abort processing of the remaining targets. -/
theorem state_query_failure_aborts_remaining :
    (startCmd c8Ctx c8Rt).ret =
      some (.wrapf (.errorf "db corrupted") "unable to get container state") ∧
    StartEvent.lookupCall "b" ∉ (startCmd c8Ctx c8Rt).trace := by
  decide

/-- C8 amended: lookup failures and start failures never abort the loop —
each such step continues with the wrapped error recorded, a successful
start still prints its identifier — and whenever every step continues,
every target is processed (each is looked up) and the command's final
reported error is the last per-target error threaded through the steps.
A state-query failure, by contrast, halts the loop (see the
counterexample). -/
theorem start_per_target_error_policy (c : StartCtx) (rt : StartRuntime) (sp : Bool) :
    (∀ (lastE : Option GoErr) (ident : String) (e : GoErr),
      rt.lookupCtr ident = .error e →
      startStep c rt sp lastE ident =
        .cont ([.lookupCall ident] ++ flushPrev lastE)
          (some (.wrapf e ("unable to find container " ++ ident)))) ∧
    (∀ (lastE : Option GoErr) (ident : String) (ctr : Container) (e : GoErr),
      c.attach = false → rt.lookupCtr ident = .ok ctr → ctr.stateErr = none →
      ctr.state ≠ ContainerStatus.running → rt.startErr ctr.id = some e →
      (startStep c rt sp lastE ident).isCont = true) ∧
    (∀ (lastE : Option GoErr) (ident : String) (ctr : Container),
      c.attach = false → rt.lookupCtr ident = .ok ctr → ctr.stateErr = none →
      ctr.state ≠ ContainerStatus.running → rt.startErr ctr.id = none →
      startStep c rt sp lastE ident =
        .cont [.lookupCall ident, .stateCall ctr.id, .startCall ctr.id,
          .stdoutLine ident] lastE) ∧
    (∀ (args : List String) (lastE : Option GoErr),
      (∀ i ∈ args, ∀ le, (startStep c rt sp le i).isCont = true) →
      (∀ i ∈ args, StartEvent.lookupCall i ∈ (startLoop c rt sp args lastE).trace) ∧
      (startLoop c rt sp args lastE).ret =
        args.foldl (fun le i => (startStep c rt sp le i).nextErr) lastE) := by
  refine ⟨?_, ?_, ?_, ?_⟩
  · intro lastE ident e hl
    unfold startStep
    simp [hl]
  · intro lastE ident ctr e hatt hl hs hr hst
    have hrb : (ctr.state == ContainerStatus.running) = false := by simp [hr]
    unfold startStep
    simp [hl, hs, hatt, hrb, hst, StepResult.isCont]
  · intro lastE ident ctr hatt hl hs hr hst
    have hrb : (ctr.state == ContainerStatus.running) = false := by simp [hr]
    unfold startStep
    simp [hl, hs, hatt, hrb, hst]
  · intro args
    induction args with
    | nil =>
      intro lastE _
      exact ⟨by simp, by simp [startLoop]⟩
    | cons i rest ih =>
      intro lastE h
      have hci := h i (List.mem_cons_self i rest) lastE
      cases hstep : startStep c rt sp lastE i with
      | halt tr ret ex =>
        rw [hstep] at hci
        simp [StepResult.isCont] at hci
      | cont tr le' =>
        have hrest := ih le' (fun j hj le => h j (List.mem_cons_of_mem _ hj) le)
        constructor
        · intro j hj
          rcases List.mem_cons.mp hj with rfl | hj
          · have hmem := startStep_mem_lookupCall c rt sp lastE j
            rw [hstep] at hmem
            simp only [StepResult.events] at hmem
            simp [startLoop, hstep]
            exact Or.inl hmem
          · simp [startLoop, hstep]
            exact Or.inr (hrest.1 j hj)
        · have hfold :
              (fun le i => (startStep c rt sp le i).nextErr) lastE i = le' := by
            show (startStep c rt sp lastE i).nextErr = le'
            rw [hstep]
            rfl
          simp only [startLoop, hstep, List.foldl_cons, hfold]
          exact hrest.2

/-- Witness for C8's amended theorem: the failing lookup and the failing
start both continue; the two-target loop looks up both targets and
reports the threaded last error. -/
theorem start_per_target_error_policy_witness :
    startStep cW8 rtW8 false none "missing" =
      .cont ([.lookupCall "missing"] ++ flushPrev none)
        (some (.wrapf (.errorf "no such container")
          ("unable to find container " ++ "missing"))) ∧
    (startStep cW8 rtW8 false none "s").isCont = true ∧
    (∀ i ∈ ["s", "t"], StartEvent.lookupCall i ∈
      (startLoop cW8 rtW8 false ["s", "t"] none).trace) ∧
    (startLoop cW8 rtW8 false ["s", "t"] none).ret =
      ["s", "t"].foldl (fun le i => (startStep cW8 rtW8 false le i).nextErr) none := by
  have h4 := (start_per_target_error_policy cW8 rtW8 false).2.2.2 ["s", "t"] none
    (by
      intro i hi le
      rcases List.mem_cons.mp hi with h | hi2
      · subst h
        exact (start_per_target_error_policy cW8 rtW8 false).2.1 le "s"
          ⟨"S", ContainerStatus.created, none, ""⟩ (.errorf "oci runtime failed")
          rfl rfl rfl (by decide) rfl
      · rcases List.mem_cons.mp hi2 with h | h3
        · subst h
          have hT := (start_per_target_error_policy cW8 rtW8 false).2.2.1 le "t"
            ⟨"T", ContainerStatus.created, none, ""⟩
            rfl rfl rfl (by decide) rfl
          rw [hT]
          rfl
        · exact absurd h3 (List.not_mem_nil _))
  exact ⟨(start_per_target_error_policy cW8 rtW8 false).1 none "missing"
      (.errorf "no such container") rfl,
    (start_per_target_error_policy cW8 rtW8 false).2.1 none "s"
      ⟨"S", ContainerStatus.created, none, ""⟩ (.errorf "oci runtime failed")
      rfl rfl rfl (by decide) rfl,
    h4.1, h4.2⟩

/-- Witness for C6's amended theorem at concrete inputs. -/
theorem checkAllAndLatest_validation_witness :
    (checkAllAndLatest ["x"] true false = none ↔
      ¬((true = true ∨ false = true) ∧ ["x"] ≠ ([] : List String)) ∧
      ¬(true = true ∧ false = true) ∧
      ¬((["x"] : List String) = [] ∧ true = false ∧ false = false)) ∧
    startCmd ⟨[], false, false, false, none, ""⟩ c6Rt =
      ⟨[], some (.errorf "you must provide at least one container name or id"), none⟩ :=
  ⟨checkAllAndLatest_validation.1 ["x"] true false,
   checkAllAndLatest_validation.2 ⟨[], false, false, false, none, ""⟩ c6Rt rfl rfl⟩
